import Mathlib

/-!
Verification of the OBD-II diagnostic tool's protocol-session core.

This file is a shallow embedding, in Lean 4, of the Python functions of the
repository that the verified properties talk about:

* `src/core/dtc_manager.py` : `DTCManager._decode_dtc`,
  `DTCManager._parse_dtc_response`, `DTCManager.clear_dtcs`,
  the `COMMON_DTCS` table and the `DTC` dataclass;
* `src/core/obd_interface.py` : `OBDInterface._hex_to_dtc`;
* `src/core/data_parser.py` : `DataParser._clean_response`,
  `DataParser._verify_response`, `DataParser._extract_data_bytes`,
  `DataParser.parse_response`, `DataParser.parse_vin`;
* `src/core/protocol_handler.py` : `ProtocolHandler._is_error_response`,
  `ProtocolHandler.send_command`;
* `src/procedures/relearn.py` : the relearn state machine
  (`start_procedure`, `execute_next_step`, `_validate_response`).

Modelling conventions: Python strings are `String` (manipulated through
`List Char`), Python `int` is `Int` (Python ints are unbounded; `>>` and
`& (2^k - 1)` are floor-division and euclidean remainder), Python functions
that may return `None` or raise an exception that the function itself
catches are `Option`-valued, and I/O (the serial adapter, the vehicle) is
a function parameter supplying the raw response a command gets. Sleeping,
logging and GUI callbacks have no effect on the modelled state and are
omitted.
-/

namespace ObdCore

/-! ### Python primitives: `int(s, 16)`, `str.strip`, `str.split`, `in` -/

/-- Python whitespace characters (those recognised by `str.strip()` /
`str.split()` and by `int()`), identified by code point. -/
def isPyWs (c : Char) : Bool :=
  c.toNat = 32 || c.toNat = 9 || c.toNat = 10 || c.toNat = 13 ||
  c.toNat = 11 || c.toNat = 12

/-- Value of one hexadecimal digit, as accepted by Python `int(_, 16)`
(`0-9`, `a-f`, `A-F`). -/
def hexVal? (c : Char) : Option Nat :=
  if 48 ≤ c.toNat ∧ c.toNat ≤ 57 then some (c.toNat - 48)
  else if 97 ≤ c.toNat ∧ c.toNat ≤ 102 then some (c.toNat - 87)
  else if 65 ≤ c.toNat ∧ c.toNat ≤ 70 then some (c.toNat - 55)
  else none

/-- Strip Python whitespace from both ends of a character list
(Python `str.strip()`). -/
def stripWsL (l : List Char) : List Char :=
  ((l.dropWhile isPyWs).reverse.dropWhile isPyWs).reverse

/-- Digit-sequence part of Python `int(_, 16)`: hexadecimal digits with
single underscores permitted between digits, accumulating the value. -/
def goDigits : Nat → List Char → Option Nat
  | acc, [] => some acc
  | acc, c :: rest =>
    if c.toNat = 95 then
      match rest with
      | [] => none
      | c2 :: rest2 =>
        match hexVal? c2 with
        | some v => goDigits (16 * acc + v) rest2
        | none => none
    else
      match hexVal? c with
      | some v => goDigits (16 * acc + v) rest
      | none => none

/-- Python `int(s, 16)` on a character list: optional surrounding
whitespace, an optional sign, an optional `0x`/`0X` marker (after which a
single underscore may precede the first digit), then hexadecimal digits
with single underscores between them.  `none` models `ValueError`. -/
def pyIntHexL (l : List Char) : Option Int :=
  let t := stripWsL l
  let sgn : Int := if t.head? = some '-' then -1 else 1
  let t1 := if t.head? = some '-' ∨ t.head? = some '+' then t.tail else t
  let t2 := if t1.take 2 = ['0', 'x'] ∨ t1.take 2 = ['0', 'X'] then t1.drop 2 else t1
  let t3 := if (t1.take 2 = ['0', 'x'] ∨ t1.take 2 = ['0', 'X']) ∧ t2.head? = some '_'
    then t2.tail else t2
  match t3 with
  | [] => none
  | c :: rest =>
    match hexVal? c with
    | some v => (goDigits v rest).map (fun m => sgn * Int.ofNat m)
    | none => none

/-- Python `int(s, 16)` on a string. -/
def pyIntHex (s : String) : Option Int := pyIntHexL s.toList

/-- Python substring containment `needle in haystack`. -/
def containsSub (needle : List Char) : List Char → Bool
  | [] => needle.isEmpty
  | c :: rest => needle.isPrefixOf (c :: rest) || containsSub needle rest

/-! ### Formatting helpers: `f"{n:X}"`, `f"{n:04d}"` -/

/-- Uppercase hexadecimal digit characters (Python `"%X"` digits). -/
def hexChar (n : Nat) : Char :=
  (['0', '1', '2', '3', '4', '5', '6', '7', '8', '9', 'A', 'B', 'C', 'D', 'E', 'F']).getD n '0'

/-- Left-pad a string with zeros to the given width (Python zero-padded
format specifications). -/
def padLeftZ (s : String) (w : Nat) : String :=
  if s.toList.length < w then String.mk (List.replicate (w - s.toList.length) '0') ++ s
  else s

/-- Python `f"{n:02X}"` for `0 ≤ n < 4096` (every value reachable in
`_verify_response` is a parsed byte plus `0x40`, hence below `0x13F`+1):
two zero-padded uppercase hexadecimal digits, three when `n ≥ 256`. -/
def natHexPad2 (n : Nat) : String :=
  if n < 256 then String.mk [hexChar (n / 16), hexChar (n % 16)]
  else String.mk [hexChar (n / 256), hexChar (n / 16 % 16), hexChar (n % 16)]

/-- Python `f"{n:02X}"` on a possibly negative int (the sign counts toward
the width). -/
def intHexPad2 (n : Int) : String :=
  if n < 0 then "-" ++ natHexPad2 n.natAbs else natHexPad2 n.toNat

/-- Python `f"{n:04d}"` on a possibly negative int (the sign counts toward
the width). -/
def intPad4 (n : Int) : String :=
  if n < 0 then "-" ++ padLeftZ (toString n.natAbs) 3 else padLeftZ (toString n.toNat) 4

/-- Python `(n >> shift) & (2^width - 1)` on an unbounded int: shift is
floor division, masking by an all-ones pattern is the euclidean remainder
(this matches Python's two's-complement semantics also for negatives). -/
def bitsField (n : Int) (shift width : Nat) : Int :=
  (Int.fdiv n (2 ^ shift)) % (2 ^ width : Nat)

/-! ### DTC codec (`src/core/dtc_manager.py`, `src/core/obd_interface.py`) -/

/-- The `DTC` dataclass of `dtc_manager.py`, restricted to the fields the
parser fills in (`detected_time` and `freeze_frame_data` stay `None` there). -/
structure DTC where
  code : String
  description : String
  status : String
  deriving DecidableEq, Repr

/-- The `COMMON_DTCS` dictionary of `DTCManager`. -/
def commonDtcs : List (String × String) :=
  [("P0000", "No DTCs detected"),
   ("P0100", "Mass or Volume Air Flow Circuit Malfunction"),
   ("P0101", "Mass or Volume Air Flow Circuit Range/Performance Problem"),
   ("P0102", "Mass or Volume Air Flow Circuit Low Input"),
   ("P0103", "Mass or Volume Air Flow Circuit High Input"),
   ("P0104", "Mass or Volume Air Flow Circuit Intermittent"),
   ("P0105", "Manifold Absolute Pressure/Barometric Pressure Circuit Malfunction"),
   ("P0106", "Manifold Absolute Pressure/Barometric Pressure Circuit Range/Performance Problem"),
   ("P0107", "Manifold Absolute Pressure/Barometric Pressure Circuit Low Input"),
   ("P0108", "Manifold Absolute Pressure/Barometric Pressure Circuit High Input"),
   ("P0109", "Manifold Absolute Pressure/Barometric Pressure Circuit Intermittent"),
   ("P0110", "Intake Air Temperature Circuit Malfunction"),
   ("P0111", "Intake Air Temperature Circuit Range/Performance Problem"),
   ("P0112", "Intake Air Temperature Circuit Low Input"),
   ("P0113", "Intake Air Temperature Circuit High Input"),
   ("P0114", "Intake Air Temperature Circuit Intermittent"),
   ("P0115", "Engine Coolant Temperature Circuit Malfunction"),
   ("P0116", "Engine Coolant Temperature Circuit Range/Performance Problem"),
   ("P0117", "Engine Coolant Temperature Circuit Low Input"),
   ("P0118", "Engine Coolant Temperature Circuit High Input"),
   ("P0119", "Engine Coolant Temperature Circuit Intermittent"),
   ("P0120", "Throttle/Pedal Position Sensor/Switch A Circuit Malfunction"),
   ("P0130", "O2 Sensor Circuit Malfunction (Bank 1, Sensor 1)"),
   ("P0131", "O2 Sensor Circuit Low Voltage (Bank 1, Sensor 1)"),
   ("P0132", "O2 Sensor Circuit High Voltage (Bank 1, Sensor 1)"),
   ("P0133", "O2 Sensor Circuit Slow Response (Bank 1, Sensor 1)"),
   ("P0134", "O2 Sensor Circuit No Activity Detected (Bank 1, Sensor 1)"),
   ("P0135", "O2 Sensor Heater Circuit Malfunction (Bank 1, Sensor 1)"),
   ("P0300", "Random/Multiple Cylinder Misfire Detected"),
   ("P0301", "Cylinder 1 Misfire Detected"),
   ("P0302", "Cylinder 2 Misfire Detected"),
   ("P0303", "Cylinder 3 Misfire Detected"),
   ("P0304", "Cylinder 4 Misfire Detected"),
   ("P0305", "Cylinder 5 Misfire Detected"),
   ("P0306", "Cylinder 6 Misfire Detected"),
   ("P0307", "Cylinder 7 Misfire Detected"),
   ("P0308", "Cylinder 8 Misfire Detected"),
   ("P0420", "Catalyst System Efficiency Below Threshold (Bank 1)"),
   ("P0430", "Catalyst System Efficiency Below Threshold (Bank 2)"),
   ("P0440", "Evaporative Emission Control System Malfunction"),
   ("P0441", "Evaporative Emission Control System Incorrect Purge Flow"),
   ("P0442", "Evaporative Emission Control System Leak Detected (Small Leak)"),
   ("P0443", "Evaporative Emission Control System Purge Control Valve Circuit Malfunction"),
   ("P0446", "Evaporative Emission Control System Vent Control Circuit Malfunction"),
   ("P0500", "Vehicle Speed Sensor Malfunction"),
   ("P0505", "Idle Control System Malfunction"),
   ("P0506", "Idle Control System RPM Lower Than Expected"),
   ("P0507", "Idle Control System RPM Higher Than Expected"),
   ("P0510", "Closed Throttle Position Switch Malfunction"),
   ("P0520", "Engine Oil Pressure Sensor/Switch Circuit Malfunction"),
   ("P0600", "Serial Communication Link Malfunction"),
   ("P0601", "Internal Control Module Memory Checksum Error"),
   ("P0602", "Control Module Programming Error"),
   ("P0603", "Internal Control Module Keep Alive Memory (KAM) Error"),
   ("P0604", "Internal Control Module Random Access Memory (RAM) Error"),
   ("P0605", "Internal Control Module Read Only Memory (ROM) Error")]

/-- Embedding of `COMMON_DTCS.get(dtc_code, 'Unknown DTC')`. -/
def dtcDescription (code : String) : String :=
  (commonDtcs.lookup code).getD "Unknown DTC"

/-- The prefix-selection chain of `_decode_dtc`: branches `0 → P`,
`1 → P`, `2 → B`, `3 → C`, and a final `else` producing `U`. -/
def dtcPrefixChar (firstDigit : Int) : Char :=
  if firstDigit = 0 then 'P'
  else if firstDigit = 1 then 'P'
  else if firstDigit = 2 then 'B'
  else if firstDigit = 3 then 'C'
  else 'U'

/-- Embedding of `DTCManager._decode_dtc` (dtc_manager.py lines 304-350): decode a
4-hex-character word.  Rejects wrong lengths, unparsable hex
(`ValueError` is caught) and the zero word; extracts the 2-bit prefix
field (bits 15-14), a 2-bit second digit (bits 13-12, printed in
decimal) and three 4-bit digits (printed as uppercase hex). -/
def decodeDtc (dtcBytes : String) : Option String :=
  if dtcBytes.toList.length ≠ 4 then none
  else
    match pyIntHex dtcBytes with
    | none => none
    | some dtcInt =>
      if dtcInt = 0 then none
      else
        some (String.mk [dtcPrefixChar (bitsField dtcInt 14 2),
          hexChar (bitsField dtcInt 12 2).toNat, hexChar (bitsField dtcInt 8 4).toNat,
          hexChar (bitsField dtcInt 4 4).toNat, hexChar (bitsField dtcInt 0 4).toNat])

/-- The `prefix_map = {0: P, 1: P, 2: B, 3: C}` lookup of `_hex_to_dtc`,
with its `.get` default `P`. -/
def hexPrefixChar (pfxBits : Int) : Char :=
  if pfxBits = 0 then 'P'
  else if pfxBits = 1 then 'P'
  else if pfxBits = 2 then 'B'
  else if pfxBits = 3 then 'C'
  else 'P'

/-- Body of `_hex_to_dtc` once the two bytes have been parsed: numeric
part from the low 6 bits of the first byte and the whole second byte,
zero rejected, prefix from the top two bits, numeric part printed with
Python's `f"{numeric:04d}"`. -/
def hexToDtcBytes (firstByte secondByte : Int) : Option String :=
  let numeric := bitsField firstByte 0 6 * 256 + secondByte
  if numeric = 0 then none
  else some (String.mk [hexPrefixChar (bitsField firstByte 6 2)] ++ intPad4 numeric)

/-- Embedding of `OBDInterface._hex_to_dtc` (obd_interface.py lines
236-266): decode a 4-hex-character word by splitting it into two bytes
and handing them to `hexToDtcBytes`.  A `ValueError` from either byte is
caught and gives `None`. -/
def hexToDtc (hexCode : String) : Option String :=
  if hexCode.toList.length ≠ 4 then none
  else
    match pyIntHexL (hexCode.toList.take 2), pyIntHexL (hexCode.toList.drop 2) with
    | some firstByte, some secondByte => hexToDtcBytes firstByte secondByte
    | _, _ => none

/-- Loop body of `_parse_dtc_response`: for index `i`, if at least one
whole word is available at all, slice the `i`-th 4-character word, decode
it, and append a `DTC` record unless the decode failed or produced
`P0000`. -/
def dtcLoopStep (data : List Char) (dtcs : List DTC) (i : Nat) : List DTC :=
  if 4 ≤ data.length then
    match decodeDtc (String.mk ((data.drop (i * 4)).take 4)) with
    | some code =>
      if code ≠ "P0000" then dtcs ++ [⟨code, dtcDescription code, "Current"⟩] else dtcs
    | none => dtcs
  else dtcs

/-- Count-and-loop part of `_parse_dtc_response`, applied to the
header-stripped data: read the count byte, then decode that many 2-byte
words.  An unparsable count byte raises `ValueError`, which the function
catches having collected nothing, so it returns `[]`. -/
def parseDtcCore (data1 : List Char) : List DTC :=
  if 2 ≤ data1.length then
    match pyIntHexL (data1.take 2) with
    | none => []
    | some numDtcs => (List.range numDtcs.toNat).foldl (dtcLoopStep (data1.drop 2)) []
  else []

/-- Embedding of `DTCManager._parse_dtc_response` (dtc_manager.py lines
256-302): remove spaces, uppercase, strip a `43`/`47`/`4A` mode header,
then hand over to `parseDtcCore`. -/
def parseDtcResponse (response : String) : List DTC :=
  let data0 := (response.toList.filter (fun c => !(c.toNat = 32))).map Char.toUpper
  parseDtcCore
    (if data0.take 2 = ['4', '3'] then data0.drop 2
     else if data0.take 2 = ['4', '7'] then data0.drop 2
     else if data0.take 2 = ['4', 'A'] then data0.drop 2
     else data0)

/-! ### Response parser (`src/core/data_parser.py`) -/

/-- Token splitter of Python `str.split()` (no argument): split on runs of
whitespace, discarding empty tokens.  The accumulator holds the current
token reversed. -/
def pySplitGo : List Char → List Char → List (List Char)
  | [], acc => if acc.isEmpty then [] else [acc.reverse]
  | c :: rest, acc =>
    if isPyWs c then
      if acc.isEmpty then pySplitGo rest [] else acc.reverse :: pySplitGo rest []
    else pySplitGo rest (c :: acc)

/-- Python `str.split()` with no argument. -/
def pySplitWs (l : List Char) : List (List Char) := pySplitGo l []

/-- The error substrings checked by `DataParser._clean_response`. -/
def cleanErrorResponses : List String :=
  ["NO DATA", "ERROR", "STOPPED", "UNABLE TO CONNECT", "?"]

/-- Embedding of `DataParser._clean_response` (data_parser.py lines 48-78): strip,
collapse whitespace to single spaces, delete the spaces, uppercase, then
blank the result if it still contains one of the error substrings. -/
def cleanResponse (response : String) : String :=
  if response = "" then ""
  else
    let c1 := stripWsL response.toList
    let c2 := List.intercalate [' '] (pySplitWs c1)
    let c3 := c2.filter (fun c => !(c.toNat = 32))
    let c4 := c3.map Char.toUpper
    if cleanErrorResponses.any (fun e => containsSub e.toList c4) then ""
    else String.mk c4

/-- Embedding of `DataParser._verify_response` (data_parser.py lines 80-106): a
response is accepted when it starts with the hex rendering of the
command's first byte plus `0x40`; an unparsable command byte
(`ValueError`) or short command rejects. -/
def verifyResponse (command response : String) : Bool :=
  if command = "" ∨ response = "" then false
  else if 2 ≤ command.toList.length then
    match pyIntHexL (command.toList.take 2) with
    | some commandByte => (intHexPad2 (commandByte + 64)).toList.isPrefixOf response.toList
    | none => false
  else false

/-- Split a character list into complete adjacent pairs, dropping a
trailing odd character (the `i + 1 < len` guard of the Python loops). -/
def hexPairs : List Char → List (List Char)
  | a :: b :: rest => [a, b] :: hexPairs rest
  | _ => []

/-- Embedding of `DataParser._extract_data_bytes` (data_parser.py lines 108-137): skip
the 4-character response header and convert the remaining hex pairs to
ints; a `ValueError` on any pair makes the function return `[]`. -/
def extractDataBytes (_command response : String) : List Int :=
  if 4 ≤ response.toList.length then
    ((hexPairs (response.toList.drop 4)).mapM pyIntHexL).getD []
  else []

/-- Embedding of `DataParser.parse_response` (data_parser.py lines 18-46): clean,
verify, extract; `none` on an empty cleaned response or a verification
failure. -/
def parseResponse (command response : String) : Option (List Int) :=
  let cleaned := cleanResponse response
  if cleaned = "" then none
  else if verifyResponse command cleaned = false then none
  else some (extractDataBytes command cleaned)

/-- Embedding of `DataParser.parse_vin` (data_parser.py lines 171-205): parse the Mode
09 PID 02 response, keep the printable-ASCII bytes, strip, and accept
exactly 17 characters. -/
def parseVin (response : String) : Option String :=
  match parseResponse "0902" response with
  | none => none
  | some dataBytes =>
    if dataBytes.isEmpty then none
    else
      let vinChars := dataBytes.filterMap
        (fun b => if 32 ≤ b ∧ b ≤ 126 then some (Char.ofNat b.toNat) else none)
      let vin := stripWsL vinChars
      if vin.length = 17 then some (String.mk vin) else none

/-! ### Protocol handler (`src/core/protocol_handler.py`) -/

/-- The `error_indicators` list of `ProtocolHandler._is_error_response`. -/
def errorIndicators : List String :=
  ["NO DATA", "ERROR", "STOPPED", "UNABLE TO CONNECT", "BUS INIT", "BUS ERROR",
   "CAN ERROR", "FB ERROR", "DATA ERROR", "LV RESET", "?"]

/-- Embedding of `ProtocolHandler._is_error_response` (protocol_handler.py lines
231-251): empty responses are errors; otherwise uppercase the response
and look for any error indicator as a substring. -/
def isErrorResponse (response : String) : Bool :=
  if response = "" then true
  else errorIndicators.any
    (fun e => containsSub e.toList (response.toList.map Char.toUpper))

/-- Embedding of `ProtocolHandler.send_command` (protocol_handler.py lines 89-121),
with the adapter modelled by the raw response it produced (`none` = no
response): reject when the session is not initialized, when the adapter
returned nothing or an empty string, and when the response matches an
error pattern; otherwise pass the response through. -/
def sendCommand (initialized : Bool) (adapterResponse : Option String) : Option String :=
  if initialized = false then none
  else
    match adapterResponse with
    | none => none
    | some r =>
      if r = "" then none
      else if isErrorResponse r then none
      else some r

/-! ### DTC manager state (`clear_dtcs`) -/

/-- The DTC lists held by `DTCManager` (`current_dtcs`, `pending_dtcs`,
`permanent_dtcs`). -/
structure DtcState where
  current : List DTC
  pending : List DTC
  permanent : List DTC
  deriving DecidableEq, Repr

/-- Embedding of `DTCManager.clear_dtcs` (dtc_manager.py lines 198-227), with the
connection state and the Mode 04 response as parameters: on a truthy
response, clear the current and pending lists — the permanent list is
deliberately untouched ("permanent DTCs cannot be cleared this way"). -/
def clearDtcs (connected : Bool) (response : Option String) (st : DtcState) :
    Bool × DtcState :=
  if connected = false then (false, st)
  else
    match response with
    | some r =>
      if r ≠ "" then (true, { st with current := [], pending := [] }) else (false, st)
    | none => (false, st)

/-! ### Relearn state machine (`src/procedures/relearn.py`) -/

/-- The status enum of a relearn procedure run. -/
inductive ProcedureStatus where
  | notStarted
  | inProgress
  | completed
  | failed
  | cancelled
  deriving DecidableEq, Repr

/-- The `ProcedureStep` dataclass (wait times do not influence the state
machine, only how long `execute_next_step` sleeps, so seconds are kept as
a plain number). -/
structure ProcStep where
  stepNumber : Nat
  description : String
  instruction : String
  command : Option String
  waitTime : Nat
  validation : Option String
  isManual : Bool
  deriving DecidableEq, Repr

/-- The mutable run state of `RelearnManager`: `current_procedure`
(`none` before any start), `procedure_status` and `current_step`. -/
structure RelearnState where
  proc : Option (List ProcStep)
  status : ProcedureStatus
  currentStep : Nat
  deriving DecidableEq, Repr

/-- Embedding of `RelearnManager._validate_response` (relearn.py lines 308-358),
taking the possibly absent command response. -/
def validateResponse (response : Option String) (validation : String) : Bool :=
  match response with
  | none => false
  | some r =>
    if r = "" then false
    else if validation = "positive_response" then
      ["71", "72", "73", "74", "75", "76", "77"].any
        (fun c => containsSub c.toList r.toList)
    else if validation = "no_errors" then
      !(containsSub "NO DATA".toList r.toList) && !(containsSub "ERROR".toList r.toList)
    else if validation = "temperature>80" then true
    else if validation = "rpm>1800" then true
    else if validation = "rpm<1000" then true
    else if validation = "closed_loop" then true
    else if validation = "trims_normal" then true
    else if validation = "adaptations_complete" then
      containsSub "complete".toList (r.toList.map Char.toLower) ||
        containsSub "ready".toList (r.toList.map Char.toLower)
    else if validation = "all_sensors_ok" then
      containsSub "OK".toList r.toList || containsSub "READY".toList r.toList
    else if validation = "angle_zero" then true
    else true

/-- Success condition of one step of `execute_next_step` (relearn.py lines
280-291): a step only fails when it has a truthy command, is not manual,
carries a validation rule, and that rule rejects the response delivered
by `env` (the modelled `obd_interface._send_command`). -/
def stepOk (env : String → Option String) (step : ProcStep) : Bool :=
  match step.command with
  | some cmd =>
    if cmd ≠ "" ∧ step.isManual = false then
      match step.validation with
      | some v => validateResponse (env cmd) v
      | none => true
    else true
  | none => true

/-- Embedding of `RelearnManager.execute_next_step` (relearn.py lines 260-306): a no-op
returning failure unless a procedure is loaded and in progress; past the
last step it transitions to `completed` returning success without
advancing; otherwise it executes the current step, transitioning to
`failed` on a validation failure and advancing the index on success. -/
def executeNextStep (env : String → Option String) (st : RelearnState) :
    Bool × RelearnState :=
  match st.proc with
  | none => (false, st)
  | some steps =>
    if st.status ≠ ProcedureStatus.inProgress then (false, st)
    else if steps.length ≤ st.currentStep then
      (true, { st with status := ProcedureStatus.completed })
    else
      match steps.get? st.currentStep with
      | none => (false, st)
      | some step =>
        if stepOk env step then (true, { st with currentStep := st.currentStep + 1 })
        else (false, { st with status := ProcedureStatus.failed })

/-- Embedding of `RelearnManager.start_procedure` (relearn.py lines 234-258): reject an
unknown name or a run already in progress; otherwise load the procedure,
set `in_progress`, reset the step index. -/
def startProcedure (procs : List (String × List ProcStep)) (name : String)
    (st : RelearnState) : Bool × RelearnState :=
  match procs.lookup name with
  | none => (false, st)
  | some steps =>
    if st.status = ProcedureStatus.inProgress then (false, st)
    else (true, ⟨some steps, ProcedureStatus.inProgress, 0⟩)

/-- Embedding of `RelearnManager.cancel_procedure` (relearn.py lines 360-372). -/
def cancelProcedure (st : RelearnState) : Bool × RelearnState :=
  if st.status = ProcedureStatus.inProgress then
    (true, { st with status := ProcedureStatus.cancelled })
  else (false, st)

/-- Run `execute_next_step` a number of times, keeping the final state. -/
def iterExec (env : String → Option String) : Nat → RelearnState → RelearnState
  | 0, st => st
  | k + 1, st => iterExec env k (executeNextStep env st).2

/-! ### DTC encoder, modelled from the spec -/

/-- Modelled from the spec: the repository contains no DTC encoder (only
the two decoders above), but spec §4.5 describes the codec as
bidirectional, "decodes 2-byte trouble-code words ... and vice versa",
with the bit scheme "top 2 bits of byte 1 select prefix
{00→P, 01→P, 10→B, 11→C}" and a preference for "mapping bit pattern
11→U" for network codes.  This encoder inverts that scheme: prefix bits
P→0, B→2, C→3, with U forced onto the only remaining candidate pattern 3,
and the digit part stored in the low 14 bits; the word is rendered as 4
uppercase hex characters. -/
def encodeDtcWord (pfx : Char) (n : Nat) : String :=
  let pfxBits : Nat := if pfx = 'P' then 0 else if pfx = 'B' then 2 else 3
  let w := pfxBits * 16384 + n
  String.mk [hexChar (w / 4096 % 16), hexChar (w / 256 % 16), hexChar (w / 16 % 16),
    hexChar (w % 16)]

/-- The standard rendering of a DTC code from its prefix letter and its
digit part written as four zero-padded decimal digits (the "original
code" of the round-trip property). -/
def dtcCodeOf (pfx : Char) (n : Nat) : String :=
  String.mk [pfx] ++ padLeftZ (toString n) 4

/-! ## Helper lemmas -/

theorem char_ne_of_toNat_ne {c d : Char} (h : c.toNat ≠ d.toNat) : c ≠ d :=
  fun he => h (by rw [he])

theorem hexVal_branches (c : Char) (v : Nat) (h : hexVal? c = some v) :
    (48 ≤ c.toNat ∧ c.toNat ≤ 57 ∧ v = c.toNat - 48) ∨
    (97 ≤ c.toNat ∧ c.toNat ≤ 102 ∧ v = c.toNat - 87) ∨
    (65 ≤ c.toNat ∧ c.toNat ≤ 70 ∧ v = c.toNat - 55) := by
  unfold hexVal? at h
  split_ifs at h with h1 h2 h3
  · injection h with h'
    exact Or.inl ⟨h1.1, h1.2, h'.symm⟩
  · injection h with h'
    exact Or.inr (Or.inl ⟨h2.1, h2.2, h'.symm⟩)
  · injection h with h'
    exact Or.inr (Or.inr ⟨h3.1, h3.2, h'.symm⟩)

theorem hexVal_notSpecial (c : Char) (v : Nat) (h : hexVal? c = some v) :
    isPyWs c = false ∧ c ≠ '-' ∧ c ≠ '+' ∧ c ≠ 'x' ∧ c ≠ 'X' ∧
    c.toNat ≠ 95 ∧ v < 16 := by
  have hb := hexVal_branches c v h
  refine ⟨?_, ?_, ?_, ?_, ?_, by omega, by omega⟩
  · simp only [isPyWs, Bool.or_eq_false_iff, decide_eq_false_iff_not]
    omega
  · exact char_ne_of_toNat_ne (by simp only [show ('-').toNat = 45 from rfl]; omega)
  · exact char_ne_of_toNat_ne (by simp only [show ('+').toNat = 43 from rfl]; omega)
  · exact char_ne_of_toNat_ne (by simp only [show ('x').toNat = 120 from rfl]; omega)
  · exact char_ne_of_toNat_ne (by simp only [show ('X').toNat = 88 from rfl]; omega)

/-- Parsing a two-hex-digit character list with Python `int(_, 16)`. -/
theorem pyIntHexL_pair (c1 c2 : Char) (v1 v2 : Nat)
    (h1 : hexVal? c1 = some v1) (h2 : hexVal? c2 = some v2) :
    pyIntHexL [c1, c2] = some (Int.ofNat (16 * v1 + v2)) := by
  obtain ⟨hw1, hm1, hp1, hx1, hX1, hu1, _⟩ := hexVal_notSpecial c1 v1 h1
  obtain ⟨hw2, hm2, hp2, hx2, hX2, hu2, _⟩ := hexVal_notSpecial c2 v2 h2
  have hstrip : stripWsL [c1, c2] = [c1, c2] := by
    simp [stripWsL, List.dropWhile, hw1, hw2]
  simp [pyIntHexL, hstrip, List.head?, hm1, hp1, hx1, hX1, hx2, hX2, h1, h2,
    goDigits, hu2]

theorem hexVal_hexChar : ∀ d, d < 16 → hexVal? (hexChar d) = some d := by decide

theorem fdiv_ofNat (a b : Nat) :
    Int.fdiv (Int.ofNat a) (Int.ofNat b) = Int.ofNat (a / b) := by
  rw [Int.fdiv_eq_ediv _ (by exact Int.ofNat_nonneg b)]
  exact (Int.ofNat_ediv a b).symm

theorem bitsField_ofNat (m s w : Nat) :
    bitsField (Int.ofNat m) s w = Int.ofNat (m / 2 ^ s % 2 ^ w) := by
  unfold bitsField
  rw [show ((2 : Int) ^ s) = Int.ofNat (2 ^ s) by norm_cast, fdiv_ofNat]
  rfl

theorem bitsField_nonneg (n : Int) (s w : Nat) : 0 ≤ bitsField n s w :=
  Int.emod_nonneg _ (by positivity)

theorem bitsField_lt (n : Int) (s w : Nat) : bitsField n s w < (2 ^ w : Nat) :=
  Int.emod_lt_of_pos _ (by positivity)

theorem dtcPrefixChar_cases (n : Int) (h0 : 0 ≤ n) (h4 : n < 4) :
    dtcPrefixChar n = 'P' ∨ dtcPrefixChar n = 'B' ∨ dtcPrefixChar n = 'C' := by
  have : n = 0 ∨ n = 1 ∨ n = 2 ∨ n = 3 := by omega
  rcases this with rfl | rfl | rfl | rfl <;> simp [dtcPrefixChar]

theorem hexPrefixChar_cases (n : Int) :
    hexPrefixChar n = 'P' ∨ hexPrefixChar n = 'B' ∨ hexPrefixChar n = 'C' := by
  unfold hexPrefixChar
  split_ifs <;> simp

/-- Whatever `_decode_dtc` returns starts with the prefix-selection
character of the word's top two bits, which lie in `[0, 4)`. -/
theorem decodeDtc_head (s c : String) (h : decodeDtc s = some c) :
    c.toList.head? = some 'P' ∨ c.toList.head? = some 'B' ∨
    c.toList.head? = some 'C' := by
  unfold decodeDtc at h
  split at h
  · exact absurd h (by simp)
  · split at h
    · exact absurd h (by simp)
    · split at h
      · exact absurd h (by simp)
      · rename_i dtcInt heq hnz
        injection h with h'
        subst h'
        simp only [String.toList, String.mk, List.head?, Option.some.injEq]
        exact dtcPrefixChar_cases _ (bitsField_nonneg _ _ _)
          (by exact_mod_cast bitsField_lt dtcInt 14 2)

/-- A word whose integer value is zero decodes to nothing. -/
theorem decodeDtc_zero (w : String) (h4 : w.toList.length = 4)
    (h0 : pyIntHex w = some 0) : decodeDtc w = none := by
  unfold decodeDtc
  rw [if_neg (by omega), h0]
  simp

/-- One iteration of the DTC-collection loop never appends a `P0000`. -/
theorem dtcLoopStep_codes (data : List Char) (acc : List DTC) (i : Nat) (d : DTC)
    (hd : d ∈ dtcLoopStep data acc i) (hacc : ∀ x ∈ acc, x.code ≠ "P0000") :
    d.code ≠ "P0000" := by
  unfold dtcLoopStep at hd
  split at hd
  · split at hd
    · rename_i code hcode
      split at hd
      · rename_i hne
        rcases List.mem_append.mp hd with hmem | hmem
        · exact hacc d hmem
        · rcases List.mem_singleton.mp hmem with rfl
          exact hne
      · exact hacc d hd
    · exact hacc d hd
  · exact hacc d hd

/-- The DTC-collection loop preserves the absence of `P0000`. -/
theorem foldl_dtc_codes (data : List Char) :
    ∀ (l : List Nat) (acc : List DTC), (∀ x ∈ acc, x.code ≠ "P0000") →
      ∀ d ∈ l.foldl (dtcLoopStep data) acc, d.code ≠ "P0000" := by
  intro l
  induction l with
  | nil => intro acc hacc d hd; exact hacc d hd
  | cons i l ih =>
    intro acc hacc d hd
    rw [List.foldl_cons] at hd
    exact ih (dtcLoopStep data acc i)
      (fun x hx => dtcLoopStep_codes data acc i x hx hacc) d hd

/-- No record produced by the count-and-loop core carries the code
`P0000`. -/
theorem parseDtcCore_no_P0000 (data1 : List Char) (d : DTC)
    (hd : d ∈ parseDtcCore data1) : d.code ≠ "P0000" := by
  unfold parseDtcCore at hd
  split at hd
  · split at hd
    · exact absurd hd (by simp)
    · exact foldl_dtc_codes _ _ [] (by simp) d hd
  · exact absurd hd (by simp)

/-- No record produced by `_parse_dtc_response` carries the code `P0000`. -/
theorem parseDtcResponse_no_P0000 (resp : String) (d : DTC)
    (hd : d ∈ parseDtcResponse resp) : d.code ≠ "P0000" :=
  parseDtcCore_no_P0000 _ d hd

/-- Reduction of `hexToDtc` when both bytes parse. -/
theorem hexToDtc_parsed (s : String) (a b : Int) (hlen : s.toList.length = 4)
    (ha : pyIntHexL (s.toList.take 2) = some a)
    (hb : pyIntHexL (s.toList.drop 2) = some b) :
    hexToDtc s = hexToDtcBytes a b := by
  unfold hexToDtc
  rw [if_neg (by omega), ha, hb]

/-- Reduction of `verifyResponse` when the command byte parses. -/
theorem verifyResponse_parsed (cmd resp : String) (cb : Int) (hcmd : cmd ≠ "")
    (hresp : resp ≠ "") (hlen : 2 ≤ cmd.toList.length)
    (hp : pyIntHexL (cmd.toList.take 2) = some cb) :
    verifyResponse cmd resp =
      (intHexPad2 (cb + 64)).toList.isPrefixOf resp.toList := by
  unfold verifyResponse
  rw [if_neg (by push_neg; exact ⟨hcmd, hresp⟩), if_pos hlen, hp]

theorem isPrefixOf_iff_take (p l : List Char) :
    p.isPrefixOf l = true ↔ l.take p.length = p := by
  rw [List.isPrefixOf_iff_prefix, List.prefix_iff_eq_take]
  constructor <;> intro h <;> exact h.symm

/-- While every executed step succeeds, `execute_next_step` keeps the run
in progress and advances the index by one per call. -/
theorem iter_advance (env : String → Option String) (steps : List ProcStep)
    (hok : ∀ s ∈ steps, stepOk env s = true) :
    ∀ (k i : Nat), i + k ≤ steps.length →
      iterExec env k ⟨some steps, ProcedureStatus.inProgress, i⟩
        = ⟨some steps, ProcedureStatus.inProgress, i + k⟩ := by
  intro k
  induction k with
  | zero => intro i _; simp [iterExec]
  | succ k ih =>
    intro i hik
    have hlt : i < steps.length := by omega
    have hs : steps.get? i = some (steps.get ⟨i, hlt⟩) := List.get?_eq_get hlt
    have hone : executeNextStep env ⟨some steps, ProcedureStatus.inProgress, i⟩
        = (true, ⟨some steps, ProcedureStatus.inProgress, i + 1⟩) := by
      simp only [executeNextStep]
      rw [if_neg (by simp), if_neg (by omega), hs]
      simp
      exact hok _ (List.get_mem steps i hlt)
    simp only [iterExec]
    rw [hone, show i + (k + 1) = (i + 1) + k by omega]
    exact ih (i + 1) (by omega)

/-- Acceptance of `_verify_response`, characterised: with a parseable
command byte whose positive-response value still fits in one byte, it
accepts exactly the responses whose first two characters are that value
in uppercase hex. -/
theorem verifyResponse_iff (cmd resp : String) (c1 c2 : Char) (v1 v2 : Nat)
    (htake : cmd.toList.take 2 = [c1, c2])
    (h1 : hexVal? c1 = some v1) (h2 : hexVal? c2 = some v2)
    (hb : 16 * v1 + v2 + 64 ≤ 255) :
    (verifyResponse cmd resp = true ↔
      resp.toList.take 2 = (natHexPad2 (16 * v1 + v2 + 64)).toList) := by
  have hlen : 2 ≤ cmd.toList.length := by
    have hlt := congrArg List.length htake
    rw [List.length_take, show ([c1, c2] : List Char).length = 2 from rfl] at hlt
    omega
  have hcmd : cmd ≠ "" := by
    intro hc
    subst hc
    exact absurd hlen (by decide)
  have hexp : natHexPad2 (16 * v1 + v2 + 64) =
      String.mk [hexChar ((16 * v1 + v2 + 64) / 16), hexChar ((16 * v1 + v2 + 64) % 16)] := by
    unfold natHexPad2
    rw [if_pos (by omega)]
  by_cases hresp : resp = ""
  · subst hresp
    rw [hexp]
    constructor
    · intro hv
      exact absurd hv (by simp [verifyResponse])
    · intro hv
      exact absurd hv (by simp [String.toList, String.mk])
  · rw [verifyResponse_parsed cmd resp (Int.ofNat (16 * v1 + v2)) hcmd hresp hlen
      (by rw [htake]; exact pyIntHexL_pair c1 c2 v1 v2 h1 h2)]
    rw [show Int.ofNat (16 * v1 + v2) + 64 = Int.ofNat (16 * v1 + v2 + 64) from rfl]
    unfold intHexPad2
    rw [if_neg (show (Int.ofNat (16 * v1 + v2 + 64) < 0) → False from
      fun hc => absurd (Int.ofNat_nonneg (16 * v1 + v2 + 64)) (not_le.mpr hc)),
      show (Int.ofNat (16 * v1 + v2 + 64)).toNat = 16 * v1 + v2 + 64 from rfl]
    rw [isPrefixOf_iff_take, hexp]
    exact Iff.rfl

/-- Round trip through `_hex_to_dtc` at the level of the raw word: a word
made of prefix bits `pb < 4` and a nonzero numeric part `n ≤ 9999`
decodes to the prefix-map character of `pb` followed by `n` zero-padded
to four decimal digits. -/
theorem hexToDtc_encode_core (pb n : Nat) (hpb : pb < 4) (h1 : 1 ≤ n) (h2 : n ≤ 9999) :
    hexToDtc (String.mk [hexChar ((pb * 16384 + n) / 4096 % 16),
      hexChar ((pb * 16384 + n) / 256 % 16), hexChar ((pb * 16384 + n) / 16 % 16),
      hexChar ((pb * 16384 + n) % 16)])
    = some (String.mk [hexPrefixChar (Int.ofNat pb)] ++ padLeftZ (toString n) 4) := by
  set w := pb * 16384 + n with hw
  have hfb : pyIntHexL [hexChar (w / 4096 % 16), hexChar (w / 256 % 16)]
      = some (Int.ofNat (16 * (w / 4096 % 16) + w / 256 % 16)) :=
    pyIntHexL_pair _ _ _ _ (hexVal_hexChar _ (by omega)) (hexVal_hexChar _ (by omega))
  have hsb : pyIntHexL [hexChar (w / 16 % 16), hexChar (w % 16)]
      = some (Int.ofNat (16 * (w / 16 % 16) + w % 16)) :=
    pyIntHexL_pair _ _ _ _ (hexVal_hexChar _ (by omega)) (hexVal_hexChar _ (by omega))
  rw [hexToDtc_parsed (String.mk [hexChar (w / 4096 % 16), hexChar (w / 256 % 16),
    hexChar (w / 16 % 16), hexChar (w % 16)]) _ _ (by rfl) hfb hsb]
  rw [show 16 * (w / 4096 % 16) + w / 256 % 16 = w / 256 by omega]
  rw [show 16 * (w / 16 % 16) + w % 16 = w % 256 by omega]
  simp only [hexToDtcBytes, bitsField_ofNat]
  rw [show (2 : Nat) ^ 0 = 1 from rfl, show (2 : Nat) ^ 6 = 64 from rfl,
    show (2 : Nat) ^ 2 = 4 from rfl, Nat.div_one]
  rw [show Int.ofNat (w / 256 % 64) * 256 + Int.ofNat (w % 256)
    = Int.ofNat (w / 256 % 64 * 256 + w % 256) from rfl]
  rw [show w / 256 % 64 * 256 + w % 256 = n by omega]
  rw [if_neg (show (Int.ofNat n = 0) → False from fun hc => by
    have hn : n = 0 := Int.ofNat.inj hc
    omega)]
  rw [show w / 256 / 64 % 4 = pb by omega]
  unfold intPad4
  rw [if_neg (show (Int.ofNat n < 0) → False from
    fun hc => absurd (Int.ofNat_nonneg n) (not_le.mpr hc)),
    show (Int.ofNat n).toNat = n from rfl]

/-- Every VIN string `parse_vin` accepts has exactly 17 characters. -/
theorem parseVin_some_length (resp v : String) (h : parseVin resp = some v) :
    v.toList.length = 17 := by
  simp only [parseVin] at h
  split at h
  · exact absurd h (by simp)
  · split at h
    · exact absurd h (by simp)
    · split at h
      · rename_i hlen
        injection h with h'
        subst h'
        simpa [String.toList, String.mk] using hlen
      · exact absurd h (by simp)

/-! ## Claim theorems -/

/-- C1 (code evaluation at the failing input): the claim says every code
produced by the decoders is exactly 5 characters, but `_hex_to_dtc` on
the word `"2710"` (prefix bits 0, numeric part 10000) produces
`"P10000"`, which has 6 characters — `f"{numeric:04d}"` overflows its
4-digit padding for any numeric part above 9999. -/
theorem c1_hexToDtc_six_char_code :
    hexToDtc "2710" = some "P10000" ∧ ("P10000" : String).toList.length = 6 := by
  decide

/-- C2 (counterexample): under the spec's documented bit scheme (with its
preferred `11 → U` choice for encoding network codes), encoding `U0100`
and decoding it back with `_hex_to_dtc` yields `C0100`, not `U0100` —
no encoder can make `U` round-trip, because both decoders map the 2-bit
prefix field only onto `{P, B, C}`.  A zero digit part cannot round-trip
either, because both decoders reject a zero numeric value. -/
theorem c2_roundtrip_counterexample :
    hexToDtc (encodeDtcWord 'U' 100) = some "C0100" ∧
    dtcCodeOf 'U' 100 = "U0100" ∧
    hexToDtc (encodeDtcWord 'U' 100) ≠ some (dtcCodeOf 'U' 100) ∧
    hexToDtc (encodeDtcWord 'P' 0) = none := by
  decide

/-- C2 (amended): for every DTC code with prefix in `{P, B, C}` and
nonzero digit part at most 9999, encoding it to a 2-byte word under the
spec's bit scheme and decoding that word back with `_hex_to_dtc` yields
the original code. -/
theorem c2_roundtrip_pbc (p : Char) (n : Nat)
    (hp : p = 'P' ∨ p = 'B' ∨ p = 'C') (h1 : 1 ≤ n) (h2 : n ≤ 9999) :
    hexToDtc (encodeDtcWord p n) = some (dtcCodeOf p n) := by
  rcases hp with rfl | rfl | rfl
  · have h := hexToDtc_encode_core 0 n (by omega) h1 h2
    simpa [encodeDtcWord, dtcCodeOf, hexPrefixChar] using h
  · have h := hexToDtc_encode_core 2 n (by omega) h1 h2
    simpa [encodeDtcWord, dtcCodeOf, hexPrefixChar] using h
  · have h := hexToDtc_encode_core 3 n (by omega) h1 h2
    simpa [encodeDtcWord, dtcCodeOf, hexPrefixChar] using h

/-- C2 (witness): the amended round trip at `B1234`. -/
theorem c2_roundtrip_pbc_witness :
    ('B' = 'P' ∨ 'B' = 'B' ∨ 'B' = 'C') ∧ 1 ≤ 1234 ∧ 1234 ≤ 9999 ∧
    hexToDtc (encodeDtcWord 'B' 1234) = some (dtcCodeOf 'B' 1234) :=
  ⟨by decide, by decide, by decide,
    c2_roundtrip_pbc 'B' 1234 (by decide) (by decide) (by decide)⟩

/-- C3 (counterexample): the claim says N calls of `execute_next_step` on
an N-step run end it in `completed`, but after starting a one-step
procedure and calling `execute_next_step` once the status is still
`in_progress` — completion is only detected (and the transition
performed) by the following call. -/
theorem c3_completion_needs_extra_call :
    (iterExec (fun _ => none) 1
        (startProcedure [("throttle_body_relearn",
          ([⟨1, "Turn ignition ON", "Turn ignition to ON position (engine off)",
            none, 2, none, true⟩] : List ProcStep))] "throttle_body_relearn"
          ⟨none, ProcedureStatus.notStarted, 0⟩).2).status
      = ProcedureStatus.inProgress ∧
    ProcedureStatus.inProgress ≠ ProcedureStatus.completed := by
  decide

/-- C3 (amended): for every started procedure run whose N steps all pass
validation, N calls of `execute_next_step` leave the run `in_progress`
with step index N; the (N+1)-th call returns success and transitions to
`completed` without advancing the index; any further call is a no-op
returning failure. -/
theorem c3_run_to_completion (env : String → Option String) (steps : List ProcStep)
    (st0 : RelearnState) (h0 : st0.status ≠ ProcedureStatus.inProgress)
    (hok : ∀ s ∈ steps, stepOk env s = true) :
    startProcedure [("proc", steps)] "proc" st0
      = (true, ⟨some steps, ProcedureStatus.inProgress, 0⟩)
    ∧ iterExec env steps.length ⟨some steps, ProcedureStatus.inProgress, 0⟩
      = ⟨some steps, ProcedureStatus.inProgress, steps.length⟩
    ∧ executeNextStep env ⟨some steps, ProcedureStatus.inProgress, steps.length⟩
      = (true, ⟨some steps, ProcedureStatus.completed, steps.length⟩)
    ∧ executeNextStep env ⟨some steps, ProcedureStatus.completed, steps.length⟩
      = (false, ⟨some steps, ProcedureStatus.completed, steps.length⟩) := by
  refine ⟨?_, ?_, ?_, ?_⟩
  · simp [startProcedure, List.lookup, h0]
  · have h := iter_advance env steps hok steps.length 0 (by omega)
    simpa using h
  · simp only [executeNextStep]
    rw [if_neg (by simp), if_pos (le_refl _)]
  · simp [executeNextStep]

/-- C3 (witness): a two-step run (one manual step, one commanded step
whose positive-response validation passes) driven to completion. -/
theorem c3_run_to_completion_witness :
    ((⟨none, ProcedureStatus.notStarted, 0⟩ : RelearnState).status
      ≠ ProcedureStatus.inProgress)
    ∧ (∀ s ∈ ([⟨1, "Turn ignition ON", "Turn ignition to ON position (engine off)",
          none, 2, none, true⟩,
        ⟨2, "Initialize relearn", "Send throttle relearn command", some "31010203",
          5, some "positive_response", false⟩] : List ProcStep),
        stepOk (fun _ => some "7101") s = true)
    ∧ (startProcedure [("proc", ([⟨1, "Turn ignition ON",
          "Turn ignition to ON position (engine off)", none, 2, none, true⟩,
        ⟨2, "Initialize relearn", "Send throttle relearn command", some "31010203",
          5, some "positive_response", false⟩] : List ProcStep))] "proc"
          ⟨none, ProcedureStatus.notStarted, 0⟩
        = (true, ⟨some ([⟨1, "Turn ignition ON",
            "Turn ignition to ON position (engine off)", none, 2, none, true⟩,
          ⟨2, "Initialize relearn", "Send throttle relearn command", some "31010203",
            5, some "positive_response", false⟩] : List ProcStep),
          ProcedureStatus.inProgress, 0⟩)
      ∧ iterExec (fun _ => some "7101")
          ([⟨1, "Turn ignition ON", "Turn ignition to ON position (engine off)",
              none, 2, none, true⟩,
            ⟨2, "Initialize relearn", "Send throttle relearn command", some "31010203",
              5, some "positive_response", false⟩] : List ProcStep).length
          ⟨some ([⟨1, "Turn ignition ON", "Turn ignition to ON position (engine off)",
              none, 2, none, true⟩,
            ⟨2, "Initialize relearn", "Send throttle relearn command", some "31010203",
              5, some "positive_response", false⟩] : List ProcStep),
            ProcedureStatus.inProgress, 0⟩
        = ⟨some ([⟨1, "Turn ignition ON", "Turn ignition to ON position (engine off)",
              none, 2, none, true⟩,
            ⟨2, "Initialize relearn", "Send throttle relearn command", some "31010203",
              5, some "positive_response", false⟩] : List ProcStep),
            ProcedureStatus.inProgress,
            ([⟨1, "Turn ignition ON", "Turn ignition to ON position (engine off)",
                none, 2, none, true⟩,
              ⟨2, "Initialize relearn", "Send throttle relearn command", some "31010203",
                5, some "positive_response", false⟩] : List ProcStep).length⟩
      ∧ executeNextStep (fun _ => some "7101")
          ⟨some ([⟨1, "Turn ignition ON", "Turn ignition to ON position (engine off)",
              none, 2, none, true⟩,
            ⟨2, "Initialize relearn", "Send throttle relearn command", some "31010203",
              5, some "positive_response", false⟩] : List ProcStep),
            ProcedureStatus.inProgress,
            ([⟨1, "Turn ignition ON", "Turn ignition to ON position (engine off)",
                none, 2, none, true⟩,
              ⟨2, "Initialize relearn", "Send throttle relearn command", some "31010203",
                5, some "positive_response", false⟩] : List ProcStep).length⟩
        = (true, ⟨some ([⟨1, "Turn ignition ON",
              "Turn ignition to ON position (engine off)", none, 2, none, true⟩,
            ⟨2, "Initialize relearn", "Send throttle relearn command", some "31010203",
              5, some "positive_response", false⟩] : List ProcStep),
            ProcedureStatus.completed,
            ([⟨1, "Turn ignition ON", "Turn ignition to ON position (engine off)",
                none, 2, none, true⟩,
              ⟨2, "Initialize relearn", "Send throttle relearn command", some "31010203",
                5, some "positive_response", false⟩] : List ProcStep).length⟩)
      ∧ executeNextStep (fun _ => some "7101")
          ⟨some ([⟨1, "Turn ignition ON", "Turn ignition to ON position (engine off)",
              none, 2, none, true⟩,
            ⟨2, "Initialize relearn", "Send throttle relearn command", some "31010203",
              5, some "positive_response", false⟩] : List ProcStep),
            ProcedureStatus.completed,
            ([⟨1, "Turn ignition ON", "Turn ignition to ON position (engine off)",
                none, 2, none, true⟩,
              ⟨2, "Initialize relearn", "Send throttle relearn command", some "31010203",
                5, some "positive_response", false⟩] : List ProcStep).length⟩
        = (false, ⟨some ([⟨1, "Turn ignition ON",
              "Turn ignition to ON position (engine off)", none, 2, none, true⟩,
            ⟨2, "Initialize relearn", "Send throttle relearn command", some "31010203",
              5, some "positive_response", false⟩] : List ProcStep),
            ProcedureStatus.completed,
            ([⟨1, "Turn ignition ON", "Turn ignition to ON position (engine off)",
                none, 2, none, true⟩,
              ⟨2, "Initialize relearn", "Send throttle relearn command", some "31010203",
                5, some "positive_response", false⟩] : List ProcStep).length⟩)) :=
  ⟨by decide, by decide,
    c3_run_to_completion (fun _ => some "7101") _
      ⟨none, ProcedureStatus.notStarted, 0⟩ (by decide) (by decide)⟩

/-- C4 (code evaluation at the failing input): the claim says a raw
response containing an error substring cleans to the empty string, but
`_clean_response` removes every space before checking the substrings, so
the multi-word patterns `NO DATA` and `UNABLE TO CONNECT` can never
match: `"NO DATA"` cleans to `"NODATA"`, not `""`. -/
theorem c4_clean_no_data_bug :
    cleanResponse "NO DATA" = "NODATA" ∧
    cleanResponse "UNABLE TO CONNECT" = "UNABLETOCONNECT" ∧
    ("NODATA" : String) ≠ "" := by
  decide

/-- C5 (counterexample): the claim says `_verify_response` accepts
exactly when the response's first two hex characters equal the command's
mode byte plus `0x40`, but for the command `"C0"` that sum is `0x100`;
the code compares against its three-character rendering `"100"` and so
accepts `"1000"`, whose first two hex characters have value `0x10`, not
`0x100`. -/
theorem c5_verify_mode_overflow :
    verifyResponse "C0" "1000" = true ∧
    pyIntHex "C0" = some 192 ∧
    pyIntHexL ("1000".toList.take 2) = some 16 ∧
    (16 : Int) ≠ 192 + 64 := by
  decide

/-- C5 (amended): for every command whose first two characters are hex
digits forming a mode byte below `0xC0` (so the positive-response byte
fits in two hex characters), `_verify_response` accepts a response
exactly when its first two characters are the mode byte plus `0x40` in
uppercase hex; in particular command `"010C"` with response `"410C1AF8"`
is accepted and the extracted data bytes are `[0x1A, 0xF8]`. -/
theorem c5_verify_accepts_iff (cmd resp : String) (c1 c2 : Char) (v1 v2 : Nat)
    (htake : cmd.toList.take 2 = [c1, c2])
    (h1 : hexVal? c1 = some v1) (h2 : hexVal? c2 = some v2)
    (hb : 16 * v1 + v2 + 64 ≤ 255) :
    (verifyResponse cmd resp = true ↔
      resp.toList.take 2 = (natHexPad2 (16 * v1 + v2 + 64)).toList)
    ∧ verifyResponse "010C" "410C1AF8" = true
    ∧ extractDataBytes "010C" "410C1AF8" = [26, 248] :=
  ⟨verifyResponse_iff cmd resp c1 c2 v1 v2 htake h1 h2 hb, by decide, by decide⟩

/-- C5 (witness): the amended statement at command `"010C"` and response
`"410C1AF8"`. -/
theorem c5_verify_accepts_iff_witness :
    ("010C" : String).toList.take 2 = ['0', '1'] ∧
    hexVal? '0' = some 0 ∧ hexVal? '1' = some 1 ∧ 16 * 0 + 1 + 64 ≤ 255 ∧
    ((verifyResponse "010C" "410C1AF8" = true ↔
      ("410C1AF8" : String).toList.take 2 = (natHexPad2 (16 * 0 + 1 + 64)).toList)
    ∧ verifyResponse "010C" "410C1AF8" = true
    ∧ extractDataBytes "010C" "410C1AF8" = [26, 248]) :=
  ⟨by decide, by decide, by decide, by decide,
    c5_verify_accepts_iff "010C" "410C1AF8" '0' '1' 0 1
      (by decide) (by decide) (by decide) (by decide)⟩

/-- C6: zero-value DTC words are skipped — a 4-character word with value
zero decodes to nothing, no record in any parsed DTC list ever carries
the code `P0000`, and the Mode 03 response with count 2 and two zero
words parses to the empty list. -/
theorem c6_zero_words_skipped (w resp : String) (d : DTC)
    (hw : w.toList.length = 4) (h0 : pyIntHex w = some 0)
    (hd : d ∈ parseDtcResponse resp) :
    decodeDtc w = none ∧ d.code ≠ "P0000" ∧
    parseDtcResponse "430200000000" = [] :=
  ⟨decodeDtc_zero w hw h0, parseDtcResponse_no_P0000 resp d hd, by decide⟩

/-- C6 (witness): at the zero word `"0000"` and the response
`"43010300"`, whose single record is `P0300`. -/
theorem c6_zero_words_skipped_witness :
    ("0000" : String).toList.length = 4 ∧
    pyIntHex "0000" = some 0 ∧
    (⟨"P0300", "Random/Multiple Cylinder Misfire Detected", "Current"⟩ : DTC)
      ∈ parseDtcResponse "43010300" ∧
    (decodeDtc "0000" = none ∧
      (⟨"P0300", "Random/Multiple Cylinder Misfire Detected", "Current"⟩ : DTC).code
        ≠ "P0000" ∧
      parseDtcResponse "430200000000" = []) :=
  ⟨by decide, by decide, by decide,
    c6_zero_words_skipped "0000" "43010300"
      ⟨"P0300", "Random/Multiple Cylinder Misfire Detected", "Current"⟩
      (by decide) (by decide) (by decide)⟩

/-- C7: `send_command` returns nothing whenever the session is not
initialized, and whenever the adapter's raw response matches an error
pattern (case-insensitive substring match); raw error text is never
returned as data. -/
theorem c7_send_command_guards (resp : Option String) (r : String)
    (h : isErrorResponse r = true) :
    sendCommand false resp = none ∧ sendCommand true (some r) = none := by
  refine ⟨rfl, ?_⟩
  by_cases hr : r = ""
  · simp [sendCommand, hr]
  · simp [sendCommand, hr, h]

/-- C7 (witness): at the error response `"NO DATA"`. -/
theorem c7_send_command_guards_witness :
    isErrorResponse "NO DATA" = true ∧
    (sendCommand false (some "410C1AF8") = none ∧
      sendCommand true (some "NO DATA") = none) :=
  ⟨by decide, c7_send_command_guards (some "410C1AF8") "NO DATA" (by decide)⟩

/-- C8: a successful `clear_dtcs` call leaves the stored permanent DTC
list exactly as it was and empties only the current and pending lists. -/
theorem c8_clear_preserves_permanent (conn : Bool) (resp : Option String)
    (st : DtcState) (h : (clearDtcs conn resp st).1 = true) :
    (clearDtcs conn resp st).2.permanent = st.permanent ∧
    (clearDtcs conn resp st).2.current = [] ∧
    (clearDtcs conn resp st).2.pending = [] := by
  cases conn
  · simp [clearDtcs] at h
  · cases resp with
    | none => simp [clearDtcs] at h
    | some r =>
      by_cases hr : r = ""
      · simp [clearDtcs, hr] at h
      · simp [clearDtcs, hr]

/-- C8 (witness): a successful clear on a state holding one DTC of each
kind. -/
theorem c8_clear_preserves_permanent_witness :
    (clearDtcs true (some "44")
        ⟨[⟨"P0300", "Random/Multiple Cylinder Misfire Detected", "Current"⟩],
         [⟨"P0420", "Catalyst System Efficiency Below Threshold (Bank 1)", "Current"⟩],
         [⟨"P0605", "Internal Control Module Read Only Memory (ROM) Error", "Current"⟩]⟩).1
      = true ∧
    ((clearDtcs true (some "44")
        ⟨[⟨"P0300", "Random/Multiple Cylinder Misfire Detected", "Current"⟩],
         [⟨"P0420", "Catalyst System Efficiency Below Threshold (Bank 1)", "Current"⟩],
         [⟨"P0605", "Internal Control Module Read Only Memory (ROM) Error", "Current"⟩]⟩).2.permanent
      = [⟨"P0605", "Internal Control Module Read Only Memory (ROM) Error", "Current"⟩] ∧
      (clearDtcs true (some "44")
        ⟨[⟨"P0300", "Random/Multiple Cylinder Misfire Detected", "Current"⟩],
         [⟨"P0420", "Catalyst System Efficiency Below Threshold (Bank 1)", "Current"⟩],
         [⟨"P0605", "Internal Control Module Read Only Memory (ROM) Error", "Current"⟩]⟩).2.current
      = [] ∧
      (clearDtcs true (some "44")
        ⟨[⟨"P0300", "Random/Multiple Cylinder Misfire Detected", "Current"⟩],
         [⟨"P0420", "Catalyst System Efficiency Below Threshold (Bank 1)", "Current"⟩],
         [⟨"P0605", "Internal Control Module Read Only Memory (ROM) Error", "Current"⟩]⟩).2.pending
      = []) :=
  ⟨by decide,
    c8_clear_preserves_permanent true (some "44")
      ⟨[⟨"P0300", "Random/Multiple Cylinder Misfire Detected", "Current"⟩],
       [⟨"P0420", "Catalyst System Efficiency Below Threshold (Bank 1)", "Current"⟩],
       [⟨"P0605", "Internal Control Module Read Only Memory (ROM) Error", "Current"⟩]⟩
      (by decide)⟩

/-- C9: `parse_vin` only ever returns a string of exactly 17 characters
(malformed input yields nothing rather than an exception, which the
embedding renders as `none`), and in particular the responses carrying
16 and 18 printable-ASCII bytes return nothing. -/
theorem c9_parse_vin_seventeen (resp v : String) (h : parseVin resp = some v) :
    v.toList.length = 17 ∧
    parseVin "4902314847424834314A584D4E3130393138" = none ∧
    parseVin "4902314847424834314A584D4E31303931383637" = none :=
  ⟨parseVin_some_length resp v h, by decide, by decide⟩

/-- C9 (witness): the response carrying the 17 printable bytes of
`1HGBH41JXMN109186`. -/
theorem c9_parse_vin_seventeen_witness :
    parseVin "4902314847424834314A584D4E313039313836" = some "1HGBH41JXMN109186" ∧
    (("1HGBH41JXMN109186" : String).toList.length = 17 ∧
      parseVin "4902314847424834314A584D4E3130393138" = none ∧
      parseVin "4902314847424834314A584D4E31303931383637" = none) :=
  ⟨by decide,
    c9_parse_vin_seventeen "4902314847424834314A584D4E313039313836"
      "1HGBH41JXMN109186" (by decide)⟩

/-- C10: whatever 4-hex-character word it is given, `_decode_dtc`
returns either nothing or a code whose prefix character is one of
`P`, `B`, `C` — the `U` branch of its prefix chain is unreachable,
because the 2-bit field `(word >> 14) & 0x03` only takes the values
0 to 3, mapped to `P`, `P`, `B`, `C`. -/
theorem c10_decode_never_U (s c : String) (h : decodeDtc s = some c) :
    c.toList.head? = some 'P' ∨ c.toList.head? = some 'B' ∨
    c.toList.head? = some 'C' :=
  decodeDtc_head s c h

/-- C10 (witness): at the word `"0300"`, which decodes to `P0300`. -/
theorem c10_decode_never_U_witness :
    decodeDtc "0300" = some "P0300" ∧
    (("P0300" : String).toList.head? = some 'P' ∨
      ("P0300" : String).toList.head? = some 'B' ∨
      ("P0300" : String).toList.head? = some 'C') :=
  ⟨by decide, c10_decode_never_U "0300" "P0300" (by decide)⟩

end ObdCore
